import Mathlib

/-!
Verification development for the lisp-validator skill (a Python multi-dialect
Lisp validation dispatcher).  The Python sources under `scripts/` are shallowly
embedded below: pure string/parsing logic becomes Lean functions on `List Char`
and `String`; subprocess invocations are abstracted as explicit inputs (each
`subprocess.run` outcome - success with parsed entries, executable not found,
timeout - is a constructor of an inductive "entry"/"outcome" type, exactly
mirroring the dictionaries the Python handlers construct); Python dictionaries
with a fixed field set become structures, with `Option` for keys that may be
absent; a Python `KeyError` escaping a function is modelled by `Except.error`.
-/

/-! ## Generic string machinery

Python string operations used by the scripts, modelled on `List Char`.
Python `in` (substring test), lexicographic string comparison (code points),
and the ASCII part of `str.lower` / regex `\s`.  Python's `\s` additionally
matches some non-ASCII Unicode whitespace; the sources only ever match against
ASCII keywords and the claims only involve ASCII content, so the embedding
uses the ASCII whitespace set.
-/

/-- ASCII whitespace, the characters matched by Python's regex `\s` on ASCII input. -/
def wsChar (c : Char) : Bool :=
  c == ' ' || c == '\t' || c == '\n' || c == '\r' || c == '\x0b' || c == '\x0c'

/-- Match a literal at the head of the input; return the remaining input on success. -/
def litMatch : List Char → List Char → Option (List Char)
  | [], s => some s
  | _ :: _, [] => none
  | l :: ls, c :: cs => if c = l then litMatch ls cs else none

/-- Test whether `needle` occurs as a contiguous sublist of `hay` (Python `needle in hay`). -/
def subList (needle : List Char) : List Char → Bool
  | [] => (litMatch needle []).isSome
  | c :: cs => (litMatch needle (c :: cs)).isSome || subList needle cs

/-- Python substring test `needle in hay` on `String`s. -/
def strContains (hay needle : String) : Bool :=
  subList needle.data hay.data

/-- Code-point comparison of characters, as Python compares string characters. -/
def charLtB (a b : Char) : Bool :=
  decide (a.toNat < b.toNat)

/-- Lexicographic (code-point) strict order on character lists: Python `<` on strings. -/
def strLt : List Char → List Char → Bool
  | [], [] => false
  | [], _ :: _ => true
  | _ :: _, [] => false
  | a :: as, b :: bs => charLtB a b || (a == b && strLt as bs)

/-- ASCII lower-casing of a character list (the relevant part of Python `str.lower`). -/
def lowerChars (s : List Char) : List Char :=
  s.map Char.toLower

/-! ## Regex matchers used by dialect detection (`scripts/validate.py`)

The content heuristics use three regex shapes:
  * `^\s*KW\s+` with `re.MULTILINE` (a line, possibly indented, starting with `KW `),
  * `^\s*#lang\s+racket` with `re.MULTILINE`,
  * `\[.*:as\s+` without `MULTILINE` (so `.` does not match a newline),
plus the plain substring test `'::' in content`.
Because every keyword starts with a non-whitespace character, the greedy
`\s*` / `\s+` parts are deterministic (maximal munch), which the matchers
below implement directly.
-/

/-- Consume a maximal run of whitespace (the deterministic reading of `\s*`
before a keyword that starts with a non-whitespace character). -/
def skipWs : List Char → List Char
  | [] => []
  | c :: cs => if wsChar c then skipWs cs else c :: cs

/-- Match `\s*KW REST` at the current position, where `REST` is `\s+LIT` when
`after = some LIT` (the `#lang\s+racket` shape) and a single mandatory
whitespace character when `after = none` (the `KW\s+` shape, `\s+` at the end
of a pattern needing exactly one witness character). -/
def matchKwAt (kw : List Char) (after : Option (List Char)) (s : List Char) : Bool :=
  match litMatch kw (skipWs s) with
  | none => false
  | some rest =>
    match after with
    | none =>
      match rest with
      | c :: _ => wsChar c
      | [] => false
    | some lit2 =>
      match rest with
      | c :: cs => wsChar c && (litMatch lit2 (skipWs cs)).isSome
      | [] => false

/-- Helper for `searchML`: try `matchKwAt` right after every newline. -/
def searchMLAux (kw : List Char) (after : Option (List Char)) : List Char → Bool
  | [] => false
  | c :: cs => (c == '\n' && matchKwAt kw after cs) || searchMLAux kw after cs

/-- The effect of `re.search(r'^\s*KW...', content, re.MULTILINE)`: the anchored
pattern may match at the start of the string or right after any newline. -/
def searchML (kw : List Char) (after : Option (List Char)) (s : List Char) : Bool :=
  matchKwAt kw after s || searchMLAux kw after s

/-- Match the literal `lit` followed by one whitespace character at the current
position (the `:as\s+` tail of the bracket pattern). -/
def litThenWs (lit : List Char) (s : List Char) : Bool :=
  match litMatch lit s with
  | some (c :: _) => wsChar c
  | _ => false

/-- Match `.*:as\s+` from the current position, where `.` does not match a
newline (the pattern is searched without `re.MULTILINE`/`re.DOTALL`). -/
def dotStarAs : List Char → Bool
  | [] => false
  | c :: cs => litThenWs [':', 'a', 's'] (c :: cs) || (!(c == '\n') && dotStarAs cs)

/-- The effect of `re.search(r'\[.*:as\s+', content)`: find a `[` followed on
the same line by `:as` and a whitespace character. -/
def searchBracketAs : List Char → Bool
  | [] => false
  | c :: cs => (c == '[' && dotStarAs cs) || searchBracketAs cs

/-! ## Dialect constants (`scripts/validation_types.py`) -/

def DIALECT_CLOJURE : String := "clojure"

def DIALECT_RACKET : String := "racket"

def DIALECT_SCHEME : String := "scheme"

def DIALECT_COMMON_LISP : String := "common-lisp"

def DIALECT_ELISP : String := "elisp"

def DIALECT_UNKNOWN : String := "unknown"

def EXIT_SUCCESS : Nat := 0

def EXIT_WARNINGS : Nat := 2

def EXIT_ERRORS : Nat := 3

/-! ## Dialect detection (`scripts/validate.py`) -/

/-- Split a character list on `/`, keeping empty segments (the components of a
POSIX path as `pathlib` sees them before normalisation). -/
def splitSlash : List Char → List (List Char)
  | [] => [[]]
  | c :: cs =>
    let r := splitSlash cs
    if c = '/' then [] :: r
    else
      match r with
      | h :: t => (c :: h) :: t
      | [] => [[c]]

/-- The last real path component: `pathlib` drops empty components and `.`
components, so `Path(p).name` is the final remaining component (or empty). -/
def pathName (p : String) : List Char :=
  ((splitSlash p.data).filter (fun c => !c.isEmpty && !(c == ['.']))).getLastD []

/-- Index (from the start) of the last `.` in a name, if any. -/
def revFindDot : List Char → Option Nat
  | [] => none
  | c :: cs =>
    match revFindDot cs with
    | some i => some (i + 1)
    | none => if c = '.' then some 0 else none

/-- The `Path(file_path).suffix` computation: the part of the name from its
last dot, provided that dot is neither the first nor the last character. -/
def pathSuffix (p : String) : List Char :=
  let name := pathName p
  match revFindDot name with
  | some i => if 0 < i ∧ i < name.length - 1 then name.drop i else []
  | none => []

/-- The lower-cased suffix `Path(file_path).suffix.lower()`. -/
def pathSuffixLower (p : String) : List Char :=
  lowerChars (pathSuffix p)

/-- Association lookup in the extension table (Python `dict.get`). -/
def lookupExt : List (List Char × String) → List Char → Option String
  | [], _ => none
  | (k, v) :: rest, e => if e = k then some v else lookupExt rest e

/-- The `extension_map` table of `detect_dialect_from_extension`. -/
def extension_map : List (List Char × String) :=
  [(".clj".data, DIALECT_CLOJURE),
   (".cljs".data, DIALECT_CLOJURE),
   (".cljc".data, DIALECT_CLOJURE),
   (".edn".data, DIALECT_CLOJURE),
   (".rkt".data, DIALECT_RACKET),
   (".scm".data, DIALECT_SCHEME),
   (".ss".data, DIALECT_SCHEME),
   (".lisp".data, DIALECT_COMMON_LISP),
   (".cl".data, DIALECT_COMMON_LISP),
   (".asd".data, DIALECT_COMMON_LISP),
   (".el".data, DIALECT_ELISP)]

/-- Embedding of `detect_dialect_from_extension` (`validate.py:90-116`). -/
def detect_dialect_from_extension (file_path : String) : Option String :=
  lookupExt extension_map (pathSuffixLower file_path)

/-- Embedding of `detect_dialect_from_content` (`validate.py:119-157`): the
fixed if-chain of regex heuristics, first match wins. -/
def detect_dialect_from_content (content : String) : Option String :=
  let s := content.data
  if searchML "(ns".data none s then some DIALECT_CLOJURE
  else if searchBracketAs s || strContains content "::" then some DIALECT_CLOJURE
  else if searchML "#lang".data (some "racket".data) s then some DIALECT_RACKET
  else if searchML "(module".data none s then some DIALECT_RACKET
  else if searchML "(defpackage".data none s then some DIALECT_COMMON_LISP
  else if searchML "(in-package".data none s then some DIALECT_COMMON_LISP
  else if searchML "(defsystem".data none s then some DIALECT_COMMON_LISP
  else if searchML "(define-module".data none s then some DIALECT_SCHEME
  else none

/-- Embedding of `detect_dialect` (`validate.py:160-197`) after the directory
pre-step: `path` is the (possibly directory-resolved) target, `isFile` is
`path.is_file()`, and `content` is the first 1024 bytes if the file could be
opened (`none` when `open`/`read` raises).  The directory pre-step
(`validate.py:173-179`) only substitutes the first globbed file for the
target, so callers model it by instantiating these three arguments with the
resolved file; a directory with no matching file has `isFile = false`. -/
def detect_dialect (path : String) (isFile : Bool) (content : Option String) : String :=
  if isFile then
    match detect_dialect_from_extension path with
    | some d => d
    | none =>
      match content with
      | some c =>
        match detect_dialect_from_content c with
        | some d => d
        | none => DIALECT_UNKNOWN
      | none => DIALECT_UNKNOWN
  else DIALECT_UNKNOWN

/-! ## The Finding model (`scripts/validation_types.py`) -/

/-- One diagnostic, as the adapters construct it.  Required keys of the Python
`Finding` TypedDict are plain fields; keys that some producers omit
(`end_line`, `end_col`, `type`, and raco-warn's extra `suggestion`) are
`Option`s, `none` meaning the key is absent (or set to `None`). -/
structure Finding where
  file : String
  line : Nat
  col : Nat
  end_line : Option Nat := none
  end_col : Option Nat := none
  severity : String
  message : String
  type : Option String := none
  suggestion : Option String := none
  tool : String
deriving DecidableEq, Repr

/-- The `(file, line, col)` triple of a finding, the sort and dedup key. -/
def findingLoc (f : Finding) : String × Nat × Nat :=
  (f.file, f.line, f.col)

/-- The comparison `lambda x: (x["file"], x["line"], x["col"])` used with
Python's ascending `list.sort`: lexicographic on the file string (code
points), then numeric on line and column. -/
def findingLe (x y : Finding) : Bool :=
  strLt x.file.data y.file.data ||
    (x.file == y.file &&
      (decide (x.line < y.line) ||
        (x.line == y.line && decide (x.col ≤ y.col))))

theorem charLtB_trans {a b c : Char} (h₁ : charLtB a b = true) (h₂ : charLtB b c = true) :
    charLtB a c = true := by
  simp only [charLtB, decide_eq_true_eq] at *
  omega

theorem charLtB_not_both {a b : Char} (h₁ : charLtB a b = false) (h₂ : charLtB b a = false) :
    a = b := by
  simp only [charLtB, decide_eq_false_iff_not, Nat.not_lt] at h₁ h₂
  exact Char.eq_of_val_eq (UInt32.ext (Nat.le_antisymm h₂ h₁))

theorem strLt_eq_of_not_lt :
    ∀ {a b : List Char}, strLt a b = false → strLt b a = false → a = b
  | [], [], _, _ => rfl
  | [], _ :: _, h₁, _ => by simp [strLt] at h₁
  | _ :: _, [], _, h₂ => by simp [strLt] at h₂
  | a :: as, b :: bs, h₁, h₂ => by
    simp only [strLt, Bool.or_eq_false_iff, Bool.and_eq_false_iff] at h₁ h₂
    obtain ⟨hab, h₁'⟩ := h₁
    obtain ⟨hba, h₂'⟩ := h₂
    have hcab : a = b := charLtB_not_both hab hba
    subst hcab
    rcases h₁' with h₁' | h₁'
    · simp at h₁'
    · rcases h₂' with h₂' | h₂'
      · simp at h₂'
      · have := strLt_eq_of_not_lt h₁' h₂'
        rw [this]

theorem strLt_trans :
    ∀ {a b c : List Char}, strLt a b = true → strLt b c = true → strLt a c = true
  | [], [], _, h₁, _ => by simp [strLt] at h₁
  | [], _ :: _, [], _, h₂ => by simp [strLt] at h₂
  | [], _ :: _, _ :: _, _, _ => by simp [strLt]
  | _ :: _, [], _, h₁, _ => by simp [strLt] at h₁
  | _ :: _, _ :: _, [], _, h₂ => by simp [strLt] at h₂
  | a :: as, b :: bs, c :: cs, h₁, h₂ => by
    simp only [strLt, Bool.or_eq_true, Bool.and_eq_true, beq_iff_eq] at h₁ h₂ ⊢
    rcases h₁ with h₁ | ⟨hab, h₁⟩
    · rcases h₂ with h₂ | ⟨hbc, h₂⟩
      · exact Or.inl (charLtB_trans h₁ h₂)
      · subst hbc; exact Or.inl h₁
    · subst hab
      rcases h₂ with h₂ | ⟨hbc, h₂⟩
      · exact Or.inl h₂
      · subst hbc; exact Or.inr ⟨rfl, strLt_trans h₁ h₂⟩

theorem strLt_irrefl : ∀ {a : List Char}, strLt a a = false
  | [] => rfl
  | c :: cs => by
    simp only [strLt, Bool.or_eq_false_iff, Bool.and_eq_false_iff]
    refine ⟨?_, Or.inr strLt_irrefl⟩
    simp [charLtB]

theorem findingLe_total (x y : Finding) : (findingLe x y || findingLe y x) = true := by
  simp only [findingLe, Bool.or_eq_true, Bool.and_eq_true, beq_iff_eq, decide_eq_true_eq]
  rcases hxy : strLt x.file.data y.file.data with _ | _
  · rcases hyx : strLt y.file.data x.file.data with _ | _
    · have hf : x.file.data = y.file.data := strLt_eq_of_not_lt hxy hyx
      have hfs : x.file = y.file := String.ext hf
      rcases Nat.lt_trichotomy x.line y.line with h | h | h
      · exact Or.inl (Or.inr ⟨hfs, Or.inl h⟩)
      · rcases Nat.le_total x.col y.col with hc | hc
        · exact Or.inl (Or.inr ⟨hfs, Or.inr ⟨h, hc⟩⟩)
        · exact Or.inr (Or.inr ⟨hfs.symm, Or.inr ⟨h.symm, hc⟩⟩)
      · exact Or.inr (Or.inr ⟨hfs.symm, Or.inl h⟩)
    · exact Or.inr (Or.inl rfl)
  · exact Or.inl (Or.inl rfl)

theorem findingLe_trans (x y z : Finding) (h₁ : findingLe x y = true)
    (h₂ : findingLe y z = true) : findingLe x z = true := by
  simp only [findingLe, Bool.or_eq_true, Bool.and_eq_true, beq_iff_eq,
    decide_eq_true_eq] at h₁ h₂ ⊢
  rcases h₁ with h₁ | ⟨hf₁, h₁⟩
  · rcases h₂ with h₂ | ⟨hf₂, h₂⟩
    · exact Or.inl (strLt_trans h₁ h₂)
    · rw [hf₂] at h₁; exact Or.inl h₁
  · rw [hf₁]
    rcases h₂ with h₂ | ⟨hf₂, h₂⟩
    · exact Or.inl h₂
    · rw [hf₂]
      refine Or.inr ⟨rfl, ?_⟩
      rcases h₁ with h₁ | ⟨he₁, h₁⟩ <;> rcases h₂ with h₂ | ⟨he₂, h₂⟩
      · exact Or.inl (Nat.lt_trans h₁ h₂)
      · exact Or.inl (he₂ ▸ h₁)
      · exact Or.inl (he₁ ▸ h₂)
      · exact Or.inr ⟨he₁.trans he₂, Nat.le_trans h₁ h₂⟩

/-- The findings list of every dialect adapter is sorted with `mergeSort`;
this is the sortedness fact reused for each of them. -/
theorem sorted_mergeSort_findingLe (l : List Finding) :
    List.Pairwise (fun a b => findingLe a b = true) (l.mergeSort findingLe) :=
  List.sorted_mergeSort (fun a b c => findingLe_trans a b c)
    (fun a b => findingLe_total a b) l

/-! ## Clojure adapter (`scripts/validate_clojure.py`) -/

/-- One raw clj-kondo JSON finding: every key is read with `dict.get` and a
default, so all fields are optional here. -/
structure KondoRawFinding where
  filename : Option String := none
  row : Option Nat := none
  col : Option Nat := none
  end_row : Option Nat := none
  end_col : Option Nat := none
  level : Option String := none
  message : Option String := none
  type : Option String := none
deriving DecidableEq, Repr

/-- Embedding of one step of `normalize_clj_kondo_findings`
(`validate_clojure.py:147-172`). -/
def normalize_clj_kondo_finding (f : KondoRawFinding) : Finding :=
  { file := f.filename.getD "unknown"
    line := f.row.getD 0
    col := f.col.getD 0
    end_line := f.end_row
    end_col := f.end_col
    severity := f.level.getD "error"
    message := f.message.getD ""
    type := some (f.type.getD "unknown")
    tool := "clj-kondo" }

/-- Outcome of `run_clj_kondo` (`validate_clojure.py:32-65`): either a
dictionary carrying an `"error"` key (executable not found, timeout, JSON
parse failure, or any other exception), or the parsed JSON with its findings
list and the `error`/`warning` counts read from its summary (via `dict.get`
with default `0`, folded into the two numbers here). -/
inductive KondoOutcome where
  | failure (msg : String)
  | ok (findings : List KondoRawFinding) (errors warnings : Nat)
deriving DecidableEq

/-- One entry of the list returned by `run_joker`
(`validate_clojure.py:68-106`): either a parsed finding from
`parse_joker_output`, or a tool-failure dictionary
`{"error": msg, "file": target, "tool": "joker"}`. -/
inductive JokerEntry where
  | failure (msg : String)
  | finding (f : Finding)
deriving DecidableEq

/-- The joker merge loop of `validate_clojure` (`validate_clojure.py:221-233`):
failure entries accumulate their messages (appended to the warnings list),
finding entries whose `(file, line, col)` is among `locs` (the primary
findings' locations, computed once before the loop) are dropped, and kept
findings bump `total_errors` when their severity is `"error"` and
`total_warnings` otherwise.  Returns (kept findings, error increment,
warning increment, failure messages), each in source order. -/
def processJoker (locs : List (String × Nat × Nat)) :
    List JokerEntry → List Finding × Nat × Nat × List String
  | [] => ([], 0, 0, [])
  | .failure msg :: rest =>
    let r := processJoker locs rest
    (r.1, r.2.1, r.2.2.1, msg :: r.2.2.2)
  | .finding f :: rest =>
    let r := processJoker locs rest
    if findingLoc f ∈ locs then r
    else
      (f :: r.1,
       (if f.severity = "error" then r.2.1 + 1 else r.2.1),
       (if f.severity = "error" then r.2.2.1 else r.2.2.1 + 1),
       r.2.2.2)

/-- The unified result dictionary every dialect adapter returns: `target`,
`dialect`, `findings`, the three `summary` fields, and the optional
`warnings` key (`none` = key absent). -/
structure AdapterOut where
  target : String
  dialect : String
  findings : List Finding
  total_errors : Nat
  total_warnings : Nat
  tools_used : List String
  warnings : Option (List String) := none
deriving DecidableEq, Repr

/-- Embedding of `validate_clojure` (`validate_clojure.py:175-241`).
`kondo` and `joker` are the outcomes of the two subprocess helpers.  The
`"joker not found"` test on `str(result.get("warnings", []))` is modelled as
element-wise substring search: the needle contains no quote characters, so it
occurs in the `str` of a list of strings exactly when it occurs in one of the
elements. -/
def validate_clojure (target : String) (use_joker : Bool)
    (kondo : KondoOutcome) (joker : List JokerEntry) : AdapterOut :=
  let step1 :=
    match kondo with
    | .failure msg => (([] : List Finding), 0, 0, ([] : List String), some [msg])
    | .ok raw ec wc =>
      (raw.map normalize_clj_kondo_finding, ec, wc, ["clj-kondo"],
       (none : Option (List String)))
  let fs0 := step1.1
  let e0 := step1.2.1
  let w0 := step1.2.2.1
  let tools0 := step1.2.2.2.1
  let warn0 := step1.2.2.2.2
  if use_joker then
    let locs := fs0.map findingLoc
    let step2 := processJoker locs joker
    let jfs := step2.1
    let je := step2.2.1
    let jw := step2.2.2.1
    let jws := step2.2.2.2
    let warn1 : Option (List String) :=
      match warn0, jws with
      | w, [] => w
      | none, ws => some ws
      | some l, ws => some (l ++ ws)
    let tools1 :=
      if (warn1.getD []).any (fun w => strContains w "joker not found") then tools0
      else tools0 ++ ["joker"]
    { target := target, dialect := "clojure"
      findings := (fs0 ++ jfs).mergeSort findingLe
      total_errors := e0 + je, total_warnings := w0 + jw
      tools_used := tools1, warnings := warn1 }
  else
    { target := target, dialect := "clojure"
      findings := fs0.mergeSort findingLe
      total_errors := e0, total_warnings := w0
      tools_used := tools0, warnings := warn0 }

/-! ## Scheme/Racket adapter (`scripts/validate_scheme.py`) -/

/-- One entry of the lists returned by `run_raco_expand` / `run_raco_review` /
`run_raco_warn` / `run_fallback_scheme_validator`: either a parsed finding, or
a tool-failure dictionary carrying an `"error"` key (with its optional
`"file"` and `"tool"` keys kept, because `str(errors[0])` is searched for a
substring and the search sees every value of the dictionary). -/
inductive SchemeEntry where
  | failure (msg : String) (file : Option String) (tool : Option String)
  | finding (f : Finding)
deriving DecidableEq

/-- The findings among a tool's entries: `[e for e in errors if "error" not in e]`
keeps exactly the dictionaries without an `"error"` key. -/
def schemeFindings (entries : List SchemeEntry) : List Finding :=
  entries.filterMap fun e =>
    match e with
    | .finding f => some f
    | .failure _ _ _ => none

/-- Substring search in `str(entry)`, the Python `repr` of the dictionary.
A needle without quote characters (here always `"not installed"`) occurs in
the `repr` exactly when it occurs in one of the dictionary's string values,
since the fixed key names and the quote-bearing separators cannot contain or
span it. -/
def entryStrContains (e : SchemeEntry) (needle : String) : Bool :=
  match e with
  | .failure msg file tool =>
    strContains msg needle ||
      (match file with | some f => strContains f needle | none => false) ||
      (match tool with | some t => strContains t needle | none => false)
  | .finding f =>
    strContains f.file needle || strContains f.severity needle ||
      strContains f.message needle || strContains f.tool needle ||
      (match f.suggestion with | some s => strContains s needle | none => false)

/-- Embedding of `validate_scheme` (`validate_scheme.py:318-378`).
`racoAvail` is `check_raco_available()`; `expandE`, `reviewE`, `warnE`,
`fallbackE` are the lists returned by the four subprocess helpers (only the
relevant ones are consulted, matching the branch taken).  Note the source
never appends to a `warnings` key in this adapter: tool failures are silently
filtered out of the findings. -/
def validate_scheme (target : String) (use_raco : Bool) (scheme_dialect : String)
    (racoAvail : Bool) (expandE reviewE warnE fallbackE : List SchemeEntry) :
    AdapterOut :=
  let raco_available := use_raco && racoAvail
  let step :=
    if raco_available then
      let t2 : List String :=
        match reviewE with
        | [] => []
        | e :: _ => if entryStrContains e "not installed" then [] else ["raco-review"]
      let t3 : List String :=
        match warnE with
        | [] => []
        | e :: _ => if entryStrContains e "not installed" then [] else ["raco-warn"]
      (schemeFindings expandE ++ schemeFindings reviewE ++ schemeFindings warnE,
       ["raco-expand"] ++ t2 ++ t3)
    else
      (schemeFindings fallbackE, ["scheme-" ++ scheme_dialect])
  let fs := step.1
  { target := target, dialect := "racket/scheme"
    findings := fs.mergeSort findingLe
    total_errors := fs.countP (fun f => f.severity == "error")
    total_warnings := fs.countP (fun f => f.severity == "warning")
    tools_used := step.2, warnings := none }

/-! ## Common Lisp adapter (`scripts/validate_common_lisp.py`) -/

/-- One entry of the lists returned by `run_sblint` / `run_sbcl_compile_check`:
a parsed finding, or one of the two shapes of tool-failure dictionary the
handlers construct - `errNF` is `{"error": msg, "tool": t}` (the
`FileNotFoundError` handler, two keys), `errWithFile` is
`{"error": msg, "file": target, "tool": t}` (the `TimeoutExpired` and generic
exception handlers, three keys).  The distinction matters because the merge
loops test `"error" in error and len(error) == 2`. -/
inductive CLEntry where
  | finding (f : Finding)
  | errNF (msg : String)
  | errWithFile (msg : String) (file : String)
deriving DecidableEq

/-- The sblint merge loop (`validate_common_lisp.py:285-295`).  A two-key
error dictionary becomes a warning; a three-key error dictionary fails the
`len(error) == 2` test, so the loop appends it to `findings` and then reads
`error["severity"]`, which raises `KeyError` (modelled as `Except.error`);
a finding bumps `total_errors` / `total_warnings` by its severity (info and
anything else counts in neither).  Returns (findings, error count, warning
count, warning messages). -/
def clSblintLoop : List CLEntry → Except String (List Finding × Nat × Nat × List String)
  | [] => .ok ([], 0, 0, [])
  | .errNF msg :: rest =>
    match clSblintLoop rest with
    | .error e => .error e
    | .ok r => .ok (r.1, r.2.1, r.2.2.1, msg :: r.2.2.2)
  | .errWithFile _ _ :: _ => .error "KeyError: severity"
  | .finding f :: rest =>
    match clSblintLoop rest with
    | .error e => .error e
    | .ok r =>
      .ok (f :: r.1,
        (if f.severity = "error" then r.2.1 + 1 else r.2.1),
        (if f.severity = "warning" then r.2.2.1 + 1 else r.2.2.1),
        r.2.2.2)

/-- The sbcl merge loop (`validate_common_lisp.py:307-317`): identical to the
sblint loop except that findings are dropped when their `message` is among
`msgs` (the primary findings' messages, computed once before the loop), and
the three-key error dictionary raises `KeyError` on `error["message"]`. -/
def clSbclLoop (msgs : List String) :
    List CLEntry → Except String (List Finding × Nat × Nat × List String)
  | [] => .ok ([], 0, 0, [])
  | .errNF msg :: rest =>
    match clSbclLoop msgs rest with
    | .error e => .error e
    | .ok r => .ok (r.1, r.2.1, r.2.2.1, msg :: r.2.2.2)
  | .errWithFile _ _ :: _ => .error "KeyError: message"
  | .finding f :: rest =>
    match clSbclLoop msgs rest with
    | .error e => .error e
    | .ok r =>
      if f.message ∈ msgs then .ok r
      else
        .ok (f :: r.1,
          (if f.severity = "error" then r.2.1 + 1 else r.2.1),
          (if f.severity = "warning" then r.2.2.1 + 1 else r.2.2.1),
          r.2.2.2)

/-- Embedding of `validate_common_lisp` (`validate_common_lisp.py:260-325`).
`targetIsFile` is `Path(target).is_file()`; `sblint` and `sbcl` are the entry
lists of the two subprocess helpers.  A `KeyError` escaping either merge loop
aborts the whole call (`Except.error`). -/
def validate_common_lisp (target : String) (use_sbcl : Bool) (targetIsFile : Bool)
    (sblint sbcl : List CLEntry) : Except String AdapterOut :=
  match clSblintLoop sblint with
  | .error e => .error e
  | .ok r1 =>
    let fs1 := r1.1
    let ws1 := r1.2.2.2
    let tools1 :=
      if ws1.any (fun w => strContains w "sblint not found") then ([] : List String)
      else ["sblint"]
    if use_sbcl && targetIsFile then
      match clSbclLoop (fs1.map Finding.message) sbcl with
      | .error e => .error e
      | .ok r2 =>
        let wsAll := ws1 ++ r2.2.2.2
        let tools2 :=
          if wsAll.any (fun w => strContains w "sbcl not found") then tools1
          else tools1 ++ ["sbcl"]
        .ok { target := target, dialect := "common-lisp"
              findings := (fs1 ++ r2.1).mergeSort findingLe
              total_errors := r1.2.1 + r2.2.1, total_warnings := r1.2.2.1 + r2.2.2.1
              tools_used := tools2
              warnings := if wsAll.isEmpty then none else some wsAll }
    else
      .ok { target := target, dialect := "common-lisp"
            findings := fs1.mergeSort findingLe
            total_errors := r1.2.1, total_warnings := r1.2.2.1
            tools_used := tools1
            warnings := if ws1.isEmpty then none else some ws1 }

/-! ## Universal / tree-sitter adapter (`scripts/validate_tree_sitter.py`) -/

/-- One entry of the list returned by `validate_with_python_library`
(`validate_tree_sitter.py:152-211`): either a finding from the tree walk, or
an error dictionary `{"error": msg}` carrying `nkeys` keys in total (every
error dictionary that function actually constructs has a single key, but the
caller tests `len(python_errors[0]) == 2`, so the key count is kept). -/
inductive TSEntry where
  | finding (f : Finding)
  | errDict (msg : String) (nkeys : Nat)
deriving DecidableEq, Repr

/-- Outcome of `run_tree_sitter_parse` (`validate_tree_sitter.py:70-99`): a
dictionary with an `"error"` key on failure, or the captured stdout on
success.  For the success case the embedding carries the results of the two
`re.finditer` scans of `parse_tree_sitter_output` over that stdout: the
`ERROR [r, c] - [r, c]` matches (start row, start col, end row, end col) and
the `MISSING <kind> [r, c]` matches (kind, row, col), each in textual order. -/
inductive CliOutcome where
  | failure (msg : String)
  | ok (errorMatches : List (Nat × Nat × Nat × Nat))
      (missingMatches : List (String × Nat × Nat))
deriving DecidableEq

/-- Embedding of `parse_tree_sitter_output` (`validate_tree_sitter.py:102-149`):
one error finding per `ERROR` match, then one warning finding per `MISSING`
match - all `ERROR` findings precede all `MISSING` findings regardless of
their positions, and 0-indexed coordinates become 1-indexed. -/
def parse_tree_sitter_output (errorMatches : List (Nat × Nat × Nat × Nat))
    (missingMatches : List (String × Nat × Nat)) (file_path : String) :
    List Finding :=
  (errorMatches.map fun m =>
    { file := file_path, line := m.1 + 1, col := m.2.1 + 1
      end_line := some (m.2.2.1 + 1), end_col := some (m.2.2.2 + 1)
      severity := "error"
      message := "Parse error: unable to parse this section (possibly incomplete or malformed)"
      tool := "tree-sitter" : Finding }) ++
  (missingMatches.map fun m =>
    { file := file_path, line := m.2.1 + 1, col := m.2.2 + 1
      severity := "warning"
      message := "Missing expected token: " ++ m.1
      tool := "tree-sitter" : Finding })

/-- The tree-sitter result dictionary.  Its `findings` list holds raw entries
rather than findings, because when the Python-library path fails with an
error dictionary whose key count is not 2, that dictionary leaks into
`result["findings"]` unchanged. -/
structure TSOut where
  target : String
  dialect : String
  findings : List TSEntry
  total_errors : Nat
  total_warnings : Nat
  tools_used : List String
  warnings : Option (List String) := none
deriving DecidableEq, Repr

/-- The value of `entry.get("severity")` for a tree-sitter findings entry. -/
def tsSeverity (e : TSEntry) : Option String :=
  match e with
  | .finding f => some f.severity
  | .errDict _ _ => none

/-- Embedding of `validate_tree_sitter` (`validate_tree_sitter.py:260-329`).
`py` is the list from `validate_with_python_library`, `tsAvail` is
`check_tree_sitter_available()`, `cli` the outcome of
`run_tree_sitter_parse`.  The branches that return before the counting loop
all carry empty findings, so applying the count uniformly at the end is
exact.  No sorting is performed anywhere in this adapter. -/
def validate_tree_sitter (file_path : String) (use_python : Bool)
    (py : List TSEntry) (tsAvail : Bool) (cli : CliOutcome) : TSOut :=
  let base : TSOut :=
    { target := file_path, dialect := "tree-sitter", findings := []
      total_errors := 0, total_warnings := 0
      tools_used := ["tree-sitter"], warnings := none }
  let cliStep : TSOut :=
    match cli with
    | .failure msg => { base with warnings := some [msg] }
    | .ok errs miss =>
      { base with findings := (parse_tree_sitter_output errs miss file_path).map .finding }
  let r :=
    if use_python then
      match py with
      | e₀ :: _ =>
        if (match e₀ with | .errDict _ n => n == 2 | .finding _ => false) then
          if !tsAvail then
            { base with
              warnings := some ["tree-sitter not available (neither CLI nor Python library)"] }
          else cliStep
        else { base with findings := py }
      | [] => { base with findings := py }
    else
      if !tsAvail then { base with warnings := some ["tree-sitter CLI not found"] }
      else cliStep
  { r with
    total_errors := r.findings.countP (fun e => tsSeverity e == some "error")
    total_warnings := r.findings.countP (fun e => tsSeverity e == some "warning") }

/-! ## Orchestrator (`scripts/validate.py`) -/

/-- The four adapters the orchestrator can dispatch to. -/
inductive AdapterCall where
  | clojure
  | scheme
  | commonLisp
  | treeSitter
deriving DecidableEq, Repr

/-- The part of an adapter's result the orchestrator reads
(`validator_result.get("findings", [])`, `.get("summary", {})`, and the
optional `warnings`).  Every adapter returns a complete summary dictionary,
so its three fields are plain here. -/
structure AdapterResult where
  findings : List Finding
  total_errors : Nat
  total_warnings : Nat
  tools_used : List String
  warnings : Option (List String) := none

/-- The summary dictionary of a `ValidationResult`. -/
structure Summary where
  total_errors : Nat
  total_warnings : Nat
  tools_used : List String
deriving DecidableEq, Repr

/-- The orchestrator's result dictionary; `none` models an absent key. -/
structure VResult where
  error : Option String := none
  target : String
  dialect : Option String := none
  detected_dialect : Option String := none
  findings : Option (List Finding) := none
  summary : Option Summary := none
  warnings : Option (List String) := none
deriving DecidableEq, Repr

/-- The routing chain of `validate` (`validate.py:242-265`): which adapter a
given `use_tree_sitter` flag and dialect string select, `none` meaning the
`Unsupported dialect` error branch. -/
def route (use_tree_sitter : Bool) (dialect : String) : Option AdapterCall :=
  if use_tree_sitter then some .treeSitter
  else if dialect = DIALECT_CLOJURE then some .clojure
  else if dialect = DIALECT_RACKET ∨ dialect = DIALECT_SCHEME then some .scheme
  else if dialect = DIALECT_COMMON_LISP then some .commonLisp
  else if dialect = DIALECT_ELISP then some .treeSitter
  else if dialect = DIALECT_UNKNOWN then some .treeSitter
  else none

/-- Embedding of `validate` (`validate.py:200-276`).  `targetExists` is
`Path(target).exists()`; `detected` is the value `detect_dialect(target)`
would return (consulted only when the dialect argument is `None` or empty,
Python truthiness); `adapters` maps each adapter to its result, abstracting
the four `validate_*` calls.  The fatal branches return their literal
dictionaries: the nonexistent-target result carries `dialect`, empty
`findings` and a zeroed `summary`, while the unsupported-dialect result
carries only `error` and `target`. -/
def validate (target : String) (targetExists : Bool) (detected : String)
    (dialectArg : Option String) (use_tree_sitter : Bool)
    (adapters : AdapterCall → AdapterResult) : VResult :=
  if !targetExists then
    { error := some ("Target not found: " ++ target)
      target := target
      dialect := some DIALECT_UNKNOWN
      findings := some []
      summary := some { total_errors := 0, total_warnings := 0, tools_used := [] } }
  else
    let dialect :=
      match dialectArg with
      | none => detected
      | some d => if d = "" then detected else d
    match route use_tree_sitter dialect with
    | none => { error := some ("Unsupported dialect: " ++ dialect), target := target }
    | some call =>
      let vr := adapters call
      let baseW : Option (List String) :=
        if !use_tree_sitter ∧ dialect = DIALECT_UNKNOWN then
          some ["Could not auto-detect dialect, using tree-sitter fallback"]
        else none
      { target := target
        detected_dialect := some dialect
        findings := some vr.findings
        summary := some { total_errors := vr.total_errors
                          total_warnings := vr.total_warnings
                          tools_used := vr.tools_used }
        warnings :=
          match baseW, vr.warnings with
          | none, none => none
          | some b, none => some b
          | none, some w => some w
          | some b, some w => some (b ++ w) }

/-- The CLI's `summary.get("total_errors", 0)` (`validate.py:367-368`): the
result's summary may be the `.get` default `{}` when the key is absent. -/
def summaryErrors (r : VResult) : Nat :=
  match r.summary with
  | none => 0
  | some s => s.total_errors

/-- The CLI's `summary.get("total_warnings", 0)` (`validate.py:370`). -/
def summaryWarnings (r : VResult) : Nat :=
  match r.summary with
  | none => 0
  | some s => s.total_warnings

/-- The exit-code selection of `main` (`validate.py:366-373`). -/
def exitCode (r : VResult) : Nat :=
  if summaryErrors r > 0 then EXIT_ERRORS
  else if summaryWarnings r > 0 then EXIT_WARNINGS
  else EXIT_SUCCESS

/-! ## Claim theorems -/

/-- C6: `detect_dialect_from_extension` returns exactly the documented
mapping - `.clj`/`.cljs`/`.cljc`/`.edn` give clojure, `.rkt` gives racket,
`.scm`/`.ss` give scheme, `.lisp`/`.cl`/`.asd` give common-lisp, `.el` gives
elisp, and any other extension gives no dialect - and in `detect_dialect` an
extension match is returned immediately, taking priority over the content
heuristics regardless of the file's content. -/
theorem C6_extension_mapping :
    (∀ p : String,
      pathSuffixLower p = ".clj".data ∨ pathSuffixLower p = ".cljs".data ∨
        pathSuffixLower p = ".cljc".data ∨ pathSuffixLower p = ".edn".data →
      detect_dialect_from_extension p = some DIALECT_CLOJURE) ∧
    (∀ p : String, pathSuffixLower p = ".rkt".data →
      detect_dialect_from_extension p = some DIALECT_RACKET) ∧
    (∀ p : String, pathSuffixLower p = ".scm".data ∨ pathSuffixLower p = ".ss".data →
      detect_dialect_from_extension p = some DIALECT_SCHEME) ∧
    (∀ p : String,
      pathSuffixLower p = ".lisp".data ∨ pathSuffixLower p = ".cl".data ∨
        pathSuffixLower p = ".asd".data →
      detect_dialect_from_extension p = some DIALECT_COMMON_LISP) ∧
    (∀ p : String, pathSuffixLower p = ".el".data →
      detect_dialect_from_extension p = some DIALECT_ELISP) ∧
    (∀ p : String,
      pathSuffixLower p ∉ [".clj".data, ".cljs".data, ".cljc".data, ".edn".data,
        ".rkt".data, ".scm".data, ".ss".data, ".lisp".data, ".cl".data, ".asd".data,
        ".el".data] →
      detect_dialect_from_extension p = none) ∧
    (∀ (p d : String) (content : Option String),
      detect_dialect_from_extension p = some d →
      detect_dialect p true content = d) := by
  refine ⟨?_, ?_, ?_, ?_, ?_, ?_, ?_⟩
  · rintro p (h | h | h | h) <;> (simp only [detect_dialect_from_extension, h]; rfl)
  · intro p h
    simp only [detect_dialect_from_extension, h]
    rfl
  · rintro p (h | h) <;> (simp only [detect_dialect_from_extension, h]; rfl)
  · rintro p (h | h | h) <;> (simp only [detect_dialect_from_extension, h]; rfl)
  · intro p h
    simp only [detect_dialect_from_extension, h]
    rfl
  · intro p h
    simp only [List.mem_cons, List.not_mem_nil, or_false, not_or] at h
    obtain ⟨n1, n2, n3, n4, n5, n6, n7, n8, n9, n10, n11⟩ := h
    simp only [detect_dialect_from_extension, extension_map, lookupExt]
    rw [if_neg n1, if_neg n2, if_neg n3, if_neg n4, if_neg n5, if_neg n6, if_neg n7,
      if_neg n8, if_neg n9, if_neg n10, if_neg n11]
  · intro p d content h
    simp only [detect_dialect, if_true, h]

/-- Witness for C6: a mixed-case Clojure extension wins over Common Lisp
content, and the other branches fire at concrete inputs. -/
theorem C6_extension_mapping_witness :
    detect_dialect_from_extension "src/core.CLJC" = some DIALECT_CLOJURE ∧
    detect_dialect_from_extension "notes.txt" = none ∧
    detect_dialect "src/util.rkt" true (some "(defpackage foo)\n") = DIALECT_RACKET :=
  ⟨C6_extension_mapping.1 "src/core.CLJC" (Or.inr (Or.inr (Or.inl (by decide)))),
   C6_extension_mapping.2.2.2.2.2.1 "notes.txt" (by decide),
   C6_extension_mapping.2.2.2.2.2.2 "src/util.rkt" DIALECT_RACKET
     (some "(defpackage foo)\n") (by decide)⟩

/-- C7 counterexample: the claim asserts that every content string containing
both the substrings `(ns foo)` and `(defpackage foo)` is detected as clojure;
the string below contains both, but its `(ns foo)` occurrence is not at the
start of a line, so no clojure heuristic fires and the defpackage rule
classifies it as common-lisp. -/
theorem C7_content_counterexample :
    strContains "x(ns foo)\n(defpackage foo)" "(ns foo)" = true ∧
    strContains "x(ns foo)\n(defpackage foo)" "(defpackage foo)" = true ∧
    detect_dialect_from_content "x(ns foo)\n(defpackage foo)" =
      some DIALECT_COMMON_LISP ∧
    detect_dialect_from_content "x(ns foo)\n(defpackage foo)" ≠
      some DIALECT_CLOJURE := by
  refine ⟨by decide, by decide, by decide, by decide⟩

set_option maxHeartbeats 2000000 in
/-- C7 (amended): `detect_dialect_from_content` applies its heuristics in the
fixed priority order clojure (line starting with `(ns `, or `::` anywhere, or
a bracket form containing `:as `), then racket (`#lang racket` line or
`(module ` line), then common-lisp (`(defpackage `/`(in-package `/
`(defsystem ` line), then scheme (`(define-module ` line), first match
winning; in particular every string with a (possibly indented) line starting
with `(ns ` is classified clojure even when `(defpackage ` lines are also
present.  (A mere substring occurrence of `(ns foo)` away from the start of a
line does not trigger the clojure rule.) -/
theorem C7_content_priority :
    (∀ c : String,
      searchML "(ns".data none c.data = true ∨ searchBracketAs c.data = true ∨
        strContains c "::" = true →
      detect_dialect_from_content c = some DIALECT_CLOJURE) ∧
    (∀ c : String,
      ¬(searchML "(ns".data none c.data = true ∨ searchBracketAs c.data = true ∨
        strContains c "::" = true) →
      searchML "#lang".data (some "racket".data) c.data = true ∨
        searchML "(module".data none c.data = true →
      detect_dialect_from_content c = some DIALECT_RACKET) ∧
    (∀ c : String,
      ¬(searchML "(ns".data none c.data = true ∨ searchBracketAs c.data = true ∨
        strContains c "::" = true) →
      ¬(searchML "#lang".data (some "racket".data) c.data = true ∨
        searchML "(module".data none c.data = true) →
      searchML "(defpackage".data none c.data = true ∨
        searchML "(in-package".data none c.data = true ∨
        searchML "(defsystem".data none c.data = true →
      detect_dialect_from_content c = some DIALECT_COMMON_LISP) ∧
    (∀ c : String,
      ¬(searchML "(ns".data none c.data = true ∨ searchBracketAs c.data = true ∨
        strContains c "::" = true) →
      ¬(searchML "#lang".data (some "racket".data) c.data = true ∨
        searchML "(module".data none c.data = true) →
      ¬(searchML "(defpackage".data none c.data = true ∨
        searchML "(in-package".data none c.data = true ∨
        searchML "(defsystem".data none c.data = true) →
      searchML "(define-module".data none c.data = true →
      detect_dialect_from_content c = some DIALECT_SCHEME) ∧
    (∀ c : String,
      ¬(searchML "(ns".data none c.data = true ∨ searchBracketAs c.data = true ∨
        strContains c "::" = true) →
      ¬(searchML "#lang".data (some "racket".data) c.data = true ∨
        searchML "(module".data none c.data = true) →
      ¬(searchML "(defpackage".data none c.data = true ∨
        searchML "(in-package".data none c.data = true ∨
        searchML "(defsystem".data none c.data = true) →
      ¬(searchML "(define-module".data none c.data = true) →
      detect_dialect_from_content c = none) := by
  refine ⟨?_, ?_, ?_, ?_, ?_⟩
  · intro c h₁
    simp only [detect_dialect_from_content]
    split_ifs <;>
      first
        | rfl
        | (exfalso; simp only [Bool.or_eq_true] at *; tauto)
  · intro c h₁ h₂
    simp only [detect_dialect_from_content]
    split_ifs <;>
      first
        | rfl
        | (exfalso; simp only [Bool.or_eq_true] at *; tauto)
  · intro c h₁ h₂ h₃
    simp only [detect_dialect_from_content]
    split_ifs <;>
      first
        | rfl
        | (exfalso; simp only [Bool.or_eq_true] at *; tauto)
  · intro c h₁ h₂ h₃ h₄
    simp only [detect_dialect_from_content]
    split_ifs <;>
      first
        | rfl
        | (exfalso; simp only [Bool.or_eq_true] at *; tauto)
  · intro c h₁ h₂ h₃ h₄
    simp only [detect_dialect_from_content]
    split_ifs <;>
      first
        | rfl
        | (exfalso; simp only [Bool.or_eq_true] at *; tauto)

/-- Witness for C7: an indented `(ns ` line beats a `(defpackage ` line, and
pure defpackage content is classified common-lisp. -/
theorem C7_content_priority_witness :
    detect_dialect_from_content "  (ns foo)\n(defpackage bar)" = some DIALECT_CLOJURE ∧
    detect_dialect_from_content "(defpackage bar)\n" = some DIALECT_COMMON_LISP :=
  ⟨C7_content_priority.1 "  (ns foo)\n(defpackage bar)" (Or.inl (by decide)),
   C7_content_priority.2.2.1 "(defpackage bar)\n" (by decide) (by decide)
     (Or.inl (by decide))⟩

/-- Helper: a non-empty dialect string outside the recognized set reaches the
`Unsupported dialect` branch of the routing chain. -/
theorem route_none_of_unrecognized (d : String)
    (h : d ∉ [DIALECT_CLOJURE, DIALECT_RACKET, DIALECT_SCHEME, DIALECT_COMMON_LISP,
      DIALECT_ELISP, DIALECT_UNKNOWN]) :
    route false d = none := by
  simp only [List.mem_cons, List.not_mem_nil, or_false, not_or] at h
  obtain ⟨h1, h2, h3, h4, h5, h6⟩ := h
  simp only [route, Bool.false_eq_true, if_false]
  rw [if_neg h1, if_neg (not_or.mpr ⟨h2, h3⟩), if_neg h4, if_neg h5, if_neg h6]

/-- Helper: the literal result dictionary of the unsupported-dialect branch. -/
theorem validate_unsupported_eq (target detected d : String)
    (A : AdapterCall → AdapterResult) (hr : route false d = none) (hd : d ≠ "") :
    validate target true detected (some d) false A =
      { error := some ("Unsupported dialect: " ++ d), target := target } := by
  simp only [validate, Bool.not_true, Bool.false_eq_true, if_false, if_neg hd, hr]

/-- Helper: the literal result dictionary of the nonexistent-target branch. -/
theorem validate_not_found_eq (target detected : String) (dialectArg : Option String)
    (ts : Bool) (A : AdapterCall → AdapterResult) :
    validate target false detected dialectArg ts A =
      { error := some ("Target not found: " ++ target), target := target
        dialect := some DIALECT_UNKNOWN, findings := some []
        summary := some { total_errors := 0, total_warnings := 0, tools_used := [] } } := by
  simp only [validate, Bool.not_false, if_true]

/-- C2 counterexample: for an existing target and the unrecognized dialect
string `python` (with `use_tree_sitter` false), the claim requires a result
with an error string, an empty findings list and a zero-count summary; the
code's result carries the error string but has no `findings` and no `summary`
key at all. -/
theorem C2_fatal_shape_counterexample :
    (validate "lib.py" true "unknown" (some "python") false
        (fun _ => { findings := [], total_errors := 0, total_warnings := 0,
                    tools_used := [] })).error = some "Unsupported dialect: python" ∧
    (validate "lib.py" true "unknown" (some "python") false
        (fun _ => { findings := [], total_errors := 0, total_warnings := 0,
                    tools_used := [] })).findings = none ∧
    (validate "lib.py" true "unknown" (some "python") false
        (fun _ => { findings := [], total_errors := 0, total_warnings := 0,
                    tools_used := [] })).summary = none := by
  refine ⟨by decide, by decide, by decide⟩

/-- C2 (amended): a nonexistent target short-circuits with a top-level error
string, an empty findings list and a zero-count summary, and no adapter is
invoked (the result does not depend on the adapters); an existing target with
`use_tree_sitter` false and a non-empty dialect string outside the recognized
set short-circuits with a result carrying only the error string and the
target - no findings list and no summary key - and likewise no adapter is
invoked.  (With `use_tree_sitter` true the universal adapter is invoked
regardless of the dialect string, so no error is produced there.) -/
theorem C2_fatal_paths :
    (∀ (target detected : String) (dialectArg : Option String) (ts : Bool)
        (A A' : AdapterCall → AdapterResult),
      (validate target false detected dialectArg ts A).error =
          some ("Target not found: " ++ target) ∧
        (validate target false detected dialectArg ts A).findings = some [] ∧
        (validate target false detected dialectArg ts A).summary =
          some { total_errors := 0, total_warnings := 0, tools_used := [] } ∧
        validate target false detected dialectArg ts A =
          validate target false detected dialectArg ts A') ∧
    (∀ (target detected d : String) (A A' : AdapterCall → AdapterResult),
      d ∉ [DIALECT_CLOJURE, DIALECT_RACKET, DIALECT_SCHEME, DIALECT_COMMON_LISP,
        DIALECT_ELISP, DIALECT_UNKNOWN] →
      d ≠ "" →
      (validate target true detected (some d) false A).error =
          some ("Unsupported dialect: " ++ d) ∧
        (validate target true detected (some d) false A).findings = none ∧
        (validate target true detected (some d) false A).summary = none ∧
        validate target true detected (some d) false A =
          validate target true detected (some d) false A') := by
  constructor
  · intro target detected dialectArg ts A A'
    rw [validate_not_found_eq, validate_not_found_eq]
    exact ⟨rfl, rfl, rfl, rfl⟩
  · intro target detected d A A' hmem hne
    have hr := route_none_of_unrecognized d hmem
    rw [validate_unsupported_eq target detected d A hr hne,
      validate_unsupported_eq target detected d A' hr hne]
    exact ⟨rfl, rfl, rfl, rfl⟩

/-- Witness for C2 (amended): both fatal branches at concrete inputs. -/
theorem C2_fatal_paths_witness :
    (validate "missing.clj" false "unknown" none false
        (fun _ => { findings := [], total_errors := 0, total_warnings := 0,
                    tools_used := [] })).error = some "Target not found: missing.clj" ∧
    (validate "app.java" true "unknown" (some "java") false
        (fun _ => { findings := [], total_errors := 0, total_warnings := 0,
                    tools_used := [] })).summary = none :=
  ⟨(C2_fatal_paths.1 "missing.clj" "unknown" none false
      (fun _ => { findings := [], total_errors := 0, total_warnings := 0,
                  tools_used := [] })
      (fun _ => { findings := [], total_errors := 0, total_warnings := 0,
                  tools_used := [] })).1,
   (C2_fatal_paths.2 "app.java" "unknown" "java"
      (fun _ => { findings := [], total_errors := 0, total_warnings := 0,
                  tools_used := [] })
      (fun _ => { findings := [], total_errors := 0, total_warnings := 0,
                  tools_used := [] })
      (by decide) (by decide)).2.2.1⟩

/-- C8: the orchestrator CLI's exit code is a function of the summary counts
only - 3 whenever `total_errors` is positive, 2 whenever `total_errors` is
zero and `total_warnings` is positive, 0 whenever both are zero (counts read
with a default of 0 when the summary key is absent). -/
theorem C8_exit_codes :
    (∀ r : VResult, summaryErrors r > 0 → exitCode r = EXIT_ERRORS) ∧
    (∀ r : VResult, summaryErrors r = 0 → summaryWarnings r > 0 →
      exitCode r = EXIT_WARNINGS) ∧
    (∀ r : VResult, summaryErrors r = 0 → summaryWarnings r = 0 →
      exitCode r = EXIT_SUCCESS) ∧
    (∀ r r' : VResult, summaryErrors r = summaryErrors r' →
      summaryWarnings r = summaryWarnings r' → exitCode r = exitCode r') := by
  refine ⟨?_, ?_, ?_, ?_⟩
  · intro r h
    simp [exitCode, h]
  · intro r h1 h2
    simp [exitCode, h1, h2]
  · intro r h1 h2
    simp [exitCode, h1, h2]
  · intro r r' h1 h2
    simp [exitCode, h1, h2]

/-- Witness for C8: the three exit codes at concrete summaries. -/
theorem C8_exit_codes_witness :
    exitCode { target := "t", summary := some ⟨1, 4, []⟩ } = EXIT_ERRORS ∧
    exitCode { target := "t", summary := some ⟨0, 4, []⟩ } = EXIT_WARNINGS ∧
    exitCode { target := "t", summary := some ⟨0, 0, []⟩ } = EXIT_SUCCESS :=
  ⟨C8_exit_codes.1 _ (by decide),
   C8_exit_codes.2.1 _ (by decide) (by decide),
   C8_exit_codes.2.2.1 _ (by decide) (by decide)⟩

/-- C9 (implicit): every fatal-error result makes the CLI exit with
`EXIT_SUCCESS` - the nonexistent-target result has zero summary counts, and
the unsupported-dialect result has no summary key at all, so the exit-code
mapping (which reads the counts with default 0) reports success. -/
theorem C9_fatal_exit_success :
    (∀ (target detected : String) (dialectArg : Option String) (ts : Bool)
        (A : AdapterCall → AdapterResult),
      (validate target false detected dialectArg ts A).error.isSome = true ∧
        summaryErrors (validate target false detected dialectArg ts A) = 0 ∧
        summaryWarnings (validate target false detected dialectArg ts A) = 0 ∧
        exitCode (validate target false detected dialectArg ts A) = EXIT_SUCCESS) ∧
    (∀ (target detected d : String) (A : AdapterCall → AdapterResult),
      d ∉ [DIALECT_CLOJURE, DIALECT_RACKET, DIALECT_SCHEME, DIALECT_COMMON_LISP,
        DIALECT_ELISP, DIALECT_UNKNOWN] →
      d ≠ "" →
      (validate target true detected (some d) false A).error.isSome = true ∧
        (validate target true detected (some d) false A).summary = none ∧
        exitCode (validate target true detected (some d) false A) = EXIT_SUCCESS) := by
  constructor
  · intro target detected dialectArg ts A
    rw [validate_not_found_eq]
    exact ⟨rfl, rfl, rfl, rfl⟩
  · intro target detected d A hmem hne
    rw [validate_unsupported_eq target detected d A
      (route_none_of_unrecognized d hmem) hne]
    exact ⟨rfl, rfl, rfl⟩

/-- Witness for C9: a nonexistent target and an unsupported dialect both map
to exit code 0 at concrete inputs. -/
theorem C9_fatal_exit_success_witness :
    exitCode (validate "gone.lisp" false "unknown" none false
      (fun _ => { findings := [], total_errors := 0, total_warnings := 0,
                  tools_used := [] })) = EXIT_SUCCESS ∧
    exitCode (validate "prog.rs" true "unknown" (some "rust") false
      (fun _ => { findings := [], total_errors := 0, total_warnings := 0,
                  tools_used := [] })) = EXIT_SUCCESS :=
  ⟨(C9_fatal_exit_success.1 "gone.lisp" "unknown" none false
      (fun _ => { findings := [], total_errors := 0, total_warnings := 0,
                  tools_used := [] })).2.2.2,
   (C9_fatal_exit_success.2 "prog.rs" "unknown" "rust"
      (fun _ => { findings := [], total_errors := 0, total_warnings := 0,
                  tools_used := [] }) (by decide) (by decide)).2.2⟩

/-- The finding entries among a joker result list. -/
def jokerFindings (l : List JokerEntry) : List Finding :=
  l.filterMap fun e =>
    match e with
    | .finding f => some f
    | .failure _ => none

/-- The failure messages among a joker result list, in order. -/
def jokerFailures (l : List JokerEntry) : List String :=
  l.filterMap fun e =>
    match e with
    | .failure m => some m
    | .finding _ => none

theorem processJoker_kept (locs : List (String × Nat × Nat)) (l : List JokerEntry) :
    (processJoker locs l).1 =
      (jokerFindings l).filter (fun f => decide (findingLoc f ∉ locs)) := by
  induction l with
  | nil => rfl
  | cons e rest ih =>
    cases e with
    | failure m => simpa [processJoker, jokerFindings] using ih
    | finding f =>
      simp only [processJoker, jokerFindings, List.filterMap_cons, List.filter_cons] at *
      by_cases h : findingLoc f ∈ locs <;> simp [h, ih]

theorem processJoker_msgs (locs : List (String × Nat × Nat)) (l : List JokerEntry) :
    (processJoker locs l).2.2.2 = jokerFailures l := by
  induction l with
  | nil => rfl
  | cons e rest ih =>
    cases e with
    | failure m => simpa [processJoker, jokerFailures] using ih
    | finding f =>
      simp only [processJoker, jokerFailures, List.filterMap_cons] at *
      by_cases h : findingLoc f ∈ locs <;> simp [h, ih]

theorem processJoker_errCount (locs : List (String × Nat × Nat)) (l : List JokerEntry) :
    (processJoker locs l).2.1 =
      (processJoker locs l).1.countP (fun f => f.severity == "error") := by
  induction l with
  | nil => rfl
  | cons e rest ih =>
    cases e with
    | failure m => simpa [processJoker] using ih
    | finding f =>
      simp only [processJoker]
      by_cases h : findingLoc f ∈ locs
      · simp [h, ih]
      · by_cases hs : f.severity = "error" <;> simp [h, hs, List.countP_cons, ih]

theorem processJoker_warnCount (locs : List (String × Nat × Nat)) (l : List JokerEntry) :
    (processJoker locs l).2.2.1 =
      (processJoker locs l).1.countP (fun f => !(f.severity == "error")) := by
  induction l with
  | nil => rfl
  | cons e rest ih =>
    cases e with
    | failure m => simpa [processJoker] using ih
    | finding f =>
      simp only [processJoker]
      by_cases h : findingLoc f ∈ locs
      · simp [h, ih]
      · by_cases hs : f.severity = "error" <;> simp [h, hs, List.countP_cons, ih]

/-- Helper: the `tools_used` list of the Clojure adapter with the secondary
tool enabled - clj-kondo exactly when it did not fail, joker unless some
warning message contains `joker not found` (so a joker timeout still lands in
`tools_used`). -/
theorem clj_tools_eq (target : String) (kondo : KondoOutcome) (j : List JokerEntry) :
    (validate_clojure target true kondo j).tools_used =
      (match kondo with
        | .failure _ => ([] : List String)
        | .ok _ _ _ => ["clj-kondo"]) ++
      (if ((match kondo with
            | .failure m => [m]
            | .ok _ _ _ => ([] : List String)) ++ jokerFailures j).any
            (fun w => strContains w "joker not found") then ([] : List String)
       else ["joker"]) := by
  cases kondo with
  | failure m =>
    simp only [validate_clojure, processJoker_msgs]
    rcases hjw : jokerFailures j with _ | ⟨x, xs⟩ <;> simp [hjw]
  | ok raw ec wc =>
    simp only [validate_clojure, processJoker_msgs]
    rcases hjw : jokerFailures j with _ | ⟨x, xs⟩ <;> simp [hjw] <;> split_ifs <;> simp_all

/-- Helper: the Clojure adapter's `tools_used` never has duplicates. -/
theorem clj_tools_nodup (target : String) (uj : Bool) (kondo : KondoOutcome)
    (j : List JokerEntry) :
    (validate_clojure target uj kondo j).tools_used.Nodup := by
  cases uj with
  | false =>
    cases kondo <;> simp [validate_clojure]
  | true =>
    rw [clj_tools_eq]
    cases kondo <;> (dsimp only; split <;> simp)

/-- Helper: the `tools_used` list of the Scheme adapter when raco is available:
raco-expand unconditionally (even when it failed or timed out), raco-review
and raco-warn exactly when they produced a nonempty entry list whose first
entry does not contain `not installed` (so a timeout is still listed and a
clean successful run is omitted). -/
theorem scheme_tools_eq (target sd : String) (eE rE wE fE : List SchemeEntry) :
    (validate_scheme target true sd true eE rE wE fE).tools_used =
      ["raco-expand"] ++
      (match rE with
        | [] => []
        | e :: _ => if entryStrContains e "not installed" then [] else ["raco-review"]) ++
      (match wE with
        | [] => []
        | e :: _ => if entryStrContains e "not installed" then [] else ["raco-warn"]) := rfl

/-- Helper: without raco, the fallback interpreter is always recorded in
`tools_used`, even when it was not found or timed out. -/
theorem scheme_tools_fallback (target sd : String) (ur ra : Bool)
    (eE rE wE fE : List SchemeEntry) (h : (ur && ra) = false) :
    (validate_scheme target ur sd ra eE rE wE fE).tools_used = ["scheme-" ++ sd] := by
  simp [validate_scheme, h]

/-- Helper: the Scheme adapter's `tools_used` never has duplicates. -/
theorem scheme_tools_nodup (target sd : String) (ur ra : Bool)
    (eE rE wE fE : List SchemeEntry) :
    (validate_scheme target ur sd ra eE rE wE fE).tools_used.Nodup := by
  by_cases h : (ur && ra) = true
  · simp only [validate_scheme, h]
    rcases rE with _ | ⟨e, es⟩ <;> rcases wE with _ | ⟨e2, es2⟩ <;> simp <;>
      split_ifs <;> simp
  · rw [scheme_tools_fallback target sd ur ra eE rE wE fE (by simpa using h)]
    simp

unseal List.merge List.mergeSort in
/-- C1: a timeout of sblint is NOT recorded as a warning like a tool-not-found
failure - the timeout dictionary has three keys, fails the
`len(error) == 2` tool-error test, is routed into the findings branch, and
the read of `error["severity"]` raises a `KeyError` that aborts the whole
`validate_common_lisp` call.  First conjunct: the crash on a timeout entry;
second: the two-key not-found entry is handled as the spec says (warning,
no finding, call completes); third: the Clojure adapter handles its timeout
entry as the spec says for contrast. -/
theorem C1_cl_timeout_keyerror :
    validate_common_lisp "proj.lisp" true true
        [CLEntry.errWithFile "sblint timed out" "proj.lisp"] [] =
      Except.error "KeyError: severity" ∧
    validate_common_lisp "proj.lisp" true true
        [CLEntry.errNF "sblint not found (install via: ros install cxxxr/sblint)"] [] =
      Except.ok { target := "proj.lisp", dialect := "common-lisp", findings := []
                  total_errors := 0, total_warnings := 0, tools_used := ["sbcl"]
                  warnings := some ["sblint not found (install via: ros install cxxxr/sblint)"] } ∧
    (validate_clojure "proj.clj" true (KondoOutcome.ok [] 0 0)
        [JokerEntry.failure "joker timed out"]).warnings = some ["joker timed out"] ∧
    (validate_clojure "proj.clj" true (KondoOutcome.ok [] 0 0)
        [JokerEntry.failure "joker timed out"]).findings = [] :=
  ⟨rfl, rfl, rfl, rfl⟩

/-- C3 counterexample: the claim says a joker run that timed out is omitted
from `tools_used`; in the code a timed-out joker is still appended (only a
`joker not found` warning suppresses it), so the result lists joker together
with the timeout warning. -/
theorem C3_tools_used_counterexample :
    (validate_clojure "a.clj" true (KondoOutcome.ok [] 0 0)
        [JokerEntry.failure "joker timed out"]).tools_used = ["clj-kondo", "joker"] ∧
    (validate_clojure "a.clj" true (KondoOutcome.ok [] 0 0)
        [JokerEntry.failure "joker timed out"]).warnings = some ["joker timed out"] := by
  refine ⟨by decide, by decide⟩

/-- C3 (amended): `tools_used` is duplicate-free and in invocation order, but
membership does not coincide with "successfully ran": in the Clojure adapter
clj-kondo appears exactly when it did not fail, while joker appears unless a
warning contains `joker not found` - a timed-out joker run is still listed;
in the Scheme adapter raco-expand is always listed when raco is available
(even if it failed), raco-review/raco-warn are listed exactly when they
returned a nonempty entry list whose first entry lacks `not installed` (a
timed-out sub-tool is listed, a successful run with no output is omitted),
and the fallback interpreter is always listed, even when absent. -/
theorem C3_tools_used_rules :
    (∀ (target : String) (kondo : KondoOutcome) (j : List JokerEntry),
      (validate_clojure target true kondo j).tools_used =
        (match kondo with
          | .failure _ => ([] : List String)
          | .ok _ _ _ => ["clj-kondo"]) ++
        (if ((match kondo with
              | .failure m => [m]
              | .ok _ _ _ => ([] : List String)) ++ jokerFailures j).any
              (fun w => strContains w "joker not found") then ([] : List String)
         else ["joker"])) ∧
    (∀ (target sd : String) (eE rE wE fE : List SchemeEntry),
      (validate_scheme target true sd true eE rE wE fE).tools_used =
        ["raco-expand"] ++
        (match rE with
          | [] => []
          | e :: _ => if entryStrContains e "not installed" then [] else ["raco-review"]) ++
        (match wE with
          | [] => []
          | e :: _ => if entryStrContains e "not installed" then [] else ["raco-warn"])) ∧
    (∀ (target sd : String) (ur ra : Bool) (eE rE wE fE : List SchemeEntry),
      (ur && ra) = false →
      (validate_scheme target ur sd ra eE rE wE fE).tools_used = ["scheme-" ++ sd]) ∧
    (∀ (target : String) (uj : Bool) (kondo : KondoOutcome) (j : List JokerEntry),
      (validate_clojure target uj kondo j).tools_used.Nodup) ∧
    (∀ (target sd : String) (ur ra : Bool) (eE rE wE fE : List SchemeEntry),
      (validate_scheme target ur sd ra eE rE wE fE).tools_used.Nodup) :=
  ⟨clj_tools_eq, scheme_tools_eq, scheme_tools_fallback, clj_tools_nodup, scheme_tools_nodup⟩

/-- Witness for C3 (amended): the fallback interpreter is listed even though
it never ran (raco disabled), at a concrete input. -/
theorem C3_tools_used_rules_witness :
    (validate_scheme "x.scm" false "guile" false [] [] [] []).tools_used =
      ["scheme-" ++ "guile"] :=
  C3_tools_used_rules.2.2.1 "x.scm" "guile" false false [] [] [] [] (by decide)

/-- The findings proper among a tree-sitter result's findings entries. -/
def tsFindings (l : List TSEntry) : List Finding :=
  l.filterMap fun e =>
    match e with
    | .finding f => some f
    | .errDict _ _ => none

/-- C4 counterexample: the universal/tree-sitter adapter does not sort its
findings - the CLI extraction emits all `ERROR` matches before all `MISSING`
matches, so for a parse output with an `ERROR` node at 0-indexed `(1,2)` and
a `MISSING` node at `(0,0)` the findings appear as `(2,3)` before `(1,1)`,
violating ascending `(file, line, col)` order. -/
theorem C4_tree_sitter_unsorted_counterexample :
    ¬ List.Pairwise (fun a b => findingLe a b = true)
      (tsFindings (validate_tree_sitter "frag.lisp" false [] true
        (CliOutcome.ok [(1, 2, 1, 5)] [(")", 0, 0)])).findings) := by
  decide

/-- C4 (amended): the Clojure, Scheme/Racket and Common Lisp adapters return
their findings sorted ascending by the `(file, line, col)` triple (file
compared lexicographically by code points, line and column numerically); the
universal/tree-sitter adapter does not sort. -/
theorem C4_sorted_dialect_adapters :
    (∀ (target : String) (uj : Bool) (kondo : KondoOutcome) (j : List JokerEntry),
      List.Pairwise (fun a b => findingLe a b = true)
        (validate_clojure target uj kondo j).findings) ∧
    (∀ (target sd : String) (ur ra : Bool) (eE rE wE fE : List SchemeEntry),
      List.Pairwise (fun a b => findingLe a b = true)
        (validate_scheme target ur sd ra eE rE wE fE).findings) ∧
    (∀ (target : String) (us tif : Bool) (sb sc : List CLEntry) (out : AdapterOut),
      validate_common_lisp target us tif sb sc = .ok out →
      List.Pairwise (fun a b => findingLe a b = true) out.findings) := by
  refine ⟨?_, ?_, ?_⟩
  · intro target uj kondo j
    cases uj <;> cases kondo <;>
      (simp only [validate_clojure]
       exact sorted_mergeSort_findingLe _)
  · intro target sd ur ra eE rE wE fE
    exact sorted_mergeSort_findingLe _
  · intro target us tif sb sc out h
    unfold validate_common_lisp at h
    cases hsb : clSblintLoop sb with
    | error e => rw [hsb] at h; exact absurd h (by simp)
    | ok r1 =>
      rw [hsb] at h
      dsimp only at h
      by_cases hc : (us && tif) = true
      · rw [if_pos hc] at h
        cases hsc : clSbclLoop (r1.1.map Finding.message) sc with
        | error e => rw [hsc] at h; exact absurd h (by simp)
        | ok r2 =>
          rw [hsc] at h
          dsimp only at h
          cases h
          exact sorted_mergeSort_findingLe _
      · rw [if_neg hc] at h
        cases h
        exact sorted_mergeSort_findingLe _

unseal List.merge List.mergeSort in
/-- Witness for C4 (amended): the Common Lisp branch applied at a concrete
run that returns a well-formed (empty, hence sorted) result. -/
theorem C4_sorted_dialect_adapters_witness :
    List.Pairwise (fun a b => findingLe a b = true)
      (AdapterOut.findings
        { target := "a.lisp", dialect := "common-lisp", findings := []
          total_errors := 0, total_warnings := 0, tools_used := ["sblint"]
          warnings := none }) :=
  C4_sorted_dialect_adapters.2.2 "a.lisp" false false [] []
    { target := "a.lisp", dialect := "common-lisp", findings := []
      total_errors := 0, total_warnings := 0, tools_used := ["sblint"]
      warnings := none }
    (by unfold validate_common_lisp clSblintLoop; rfl)

/-- Helper: a list whose `countP` for `q` is 1 and which contains a `q`-witness
`x` filters to exactly `[x]`. -/
theorem filter_eq_singleton_of_countP {α : Type} (q : α → Bool) :
    ∀ (l : List α) (x : α), l.countP q = 1 → x ∈ l → q x = true → l.filter q = [x]
  | [], x, _, hx, _ => absurd hx (List.not_mem_nil x)
  | a :: t, x, hc, hx, hqx => by
    rw [List.countP_cons] at hc
    by_cases hqa : q a = true
    · rw [if_pos hqa] at hc
      have ht : t.countP q = 0 := by omega
      have hxa : x = a := by
        rcases List.mem_cons.mp hx with h | h
        · exact h
        · exact absurd hqx (List.countP_eq_zero.mp ht x h)
      rw [List.filter_cons_of_pos hqa, List.filter_eq_nil_iff.mpr (List.countP_eq_zero.mp ht),
        hxa]
    · rw [if_neg hqa] at hc
      have hxt : x ∈ t := by
        rcases List.mem_cons.mp hx with h | h
        · exact absurd (h ▸ hqx) hqa
        · exact h
      rw [List.filter_cons_of_neg hqa]
      exact filter_eq_singleton_of_countP q t x (by omega) hxt hqx

/-- C5: in the Clojure adapter, when exactly one primary (clj-kondo) finding
occupies a `(file, line, col)` triple and a secondary (joker) finding shares
that triple, the merged result contains exactly one finding at that location
and it is the primary's (a clj-kondo finding); every secondary finding whose
triple is not among the primary findings is kept in the merged findings, and
the summary totals count exactly the kept secondary findings on top of the
clj-kondo summary counts (`total_errors` for severity `error`,
`total_warnings` for every other severity). -/
theorem C5_merge_dedup :
    ∀ (target : String) (raw : List KondoRawFinding) (ec wc : Nat) (j : List JokerEntry),
      (∀ p : Finding, p ∈ raw.map normalize_clj_kondo_finding →
        (raw.map normalize_clj_kondo_finding).countP
            (fun g => decide (findingLoc g = findingLoc p)) = 1 →
        (∃ s : Finding, s ∈ jokerFindings j ∧ findingLoc s = findingLoc p) →
        (validate_clojure target true (KondoOutcome.ok raw ec wc) j).findings.filter
            (fun g => decide (findingLoc g = findingLoc p)) = [p] ∧
          p.tool = "clj-kondo") ∧
      (∀ s : Finding, s ∈ jokerFindings j →
        findingLoc s ∉ (raw.map normalize_clj_kondo_finding).map findingLoc →
        s ∈ (validate_clojure target true (KondoOutcome.ok raw ec wc) j).findings) ∧
      (validate_clojure target true (KondoOutcome.ok raw ec wc) j).total_errors =
        ec + ((jokerFindings j).filter
            (fun f => decide (findingLoc f ∉
              (raw.map normalize_clj_kondo_finding).map findingLoc))).countP
          (fun f => f.severity == "error") ∧
      (validate_clojure target true (KondoOutcome.ok raw ec wc) j).total_warnings =
        wc + ((jokerFindings j).filter
            (fun f => decide (findingLoc f ∉
              (raw.map normalize_clj_kondo_finding).map findingLoc))).countP
          (fun f => !(f.severity == "error")) := by
  intro target raw ec wc j
  have hfind : (validate_clojure target true (KondoOutcome.ok raw ec wc) j).findings =
      ((raw.map normalize_clj_kondo_finding) ++
        (processJoker ((raw.map normalize_clj_kondo_finding).map findingLoc) j).1).mergeSort
        findingLe := rfl
  have herr : (validate_clojure target true (KondoOutcome.ok raw ec wc) j).total_errors =
      ec + (processJoker ((raw.map normalize_clj_kondo_finding).map findingLoc) j).2.1 := rfl
  have hwarn : (validate_clojure target true (KondoOutcome.ok raw ec wc) j).total_warnings =
      wc + (processJoker ((raw.map normalize_clj_kondo_finding).map findingLoc) j).2.2.1 := rfl
  refine ⟨?_, ?_, ?_, ?_⟩
  · intro p hp hcount hex
    have htool : p.tool = "clj-kondo" := by
      obtain ⟨f, hf, hpf⟩ := List.mem_map.mp hp
      rw [← hpf]
      rfl
    refine ⟨?_, htool⟩
    rw [hfind]
    have hploc : findingLoc p ∈ (raw.map normalize_clj_kondo_finding).map findingLoc :=
      List.mem_map.mpr ⟨p, hp, rfl⟩
    have hkept0 : ((processJoker ((raw.map normalize_clj_kondo_finding).map findingLoc) j).1).filter
        (fun g => decide (findingLoc g = findingLoc p)) = [] := by
      rw [processJoker_kept]
      apply List.filter_eq_nil_iff.mpr
      intro a ha
      have hnot := (List.mem_filter.mp ha).2
      simp only [decide_eq_true_eq] at hnot ⊢
      intro heq
      exact hnot (heq ▸ hploc)
    have hprimf : ((raw.map normalize_clj_kondo_finding)).filter
        (fun g => decide (findingLoc g = findingLoc p)) = [p] :=
      filter_eq_singleton_of_countP _ _ p hcount hp (by simp)
    have hperm := (List.mergeSort_perm ((raw.map normalize_clj_kondo_finding) ++
        (processJoker ((raw.map normalize_clj_kondo_finding).map findingLoc) j).1) findingLe).filter
      (fun g => decide (findingLoc g = findingLoc p))
    rw [List.filter_append, hprimf, hkept0] at hperm
    exact List.perm_singleton.mp hperm
  · intro s hs hsloc
    rw [hfind]
    rw [List.mem_mergeSort, List.mem_append]
    right
    rw [processJoker_kept, List.mem_filter]
    exact ⟨hs, by simpa using hsloc⟩
  · rw [herr, processJoker_errCount, processJoker_kept]
  · rw [hwarn, processJoker_warnCount, processJoker_kept]

/-- A sample raw clj-kondo finding used by the C5 witness. -/
def c5Raw : KondoRawFinding :=
  { filename := some "a.clj", row := some 3, col := some 1
    level := some "error", message := some "primary" }

/-- A sample joker finding at the same location as `c5Raw` (to be dropped). -/
def c5Dup : Finding :=
  { file := "a.clj", line := 3, col := 1, severity := "warning"
    message := "dup", tool := "joker" }

/-- A sample joker finding at a fresh location (to be kept). -/
def c5New : Finding :=
  { file := "b.clj", line := 1, col := 1, severity := "error"
    message := "new", tool := "joker" }

/-- Witness for C5: at a concrete primary/secondary collision the merged
findings keep exactly the clj-kondo finding at that location. -/
theorem C5_merge_dedup_witness :
    (validate_clojure "a.clj" true (KondoOutcome.ok [c5Raw] 1 0)
        [JokerEntry.finding c5Dup, JokerEntry.finding c5New]).findings.filter
      (fun g => decide (findingLoc g = findingLoc (normalize_clj_kondo_finding c5Raw))) =
      [normalize_clj_kondo_finding c5Raw] ∧
    (normalize_clj_kondo_finding c5Raw).tool = "clj-kondo" :=
  (C5_merge_dedup "a.clj" [c5Raw] 1 0 [JokerEntry.finding c5Dup, JokerEntry.finding c5New]).1
    (normalize_clj_kondo_finding c5Raw) (by decide) (by decide)
    ⟨c5Dup, by decide, by decide⟩

/-- C10: in the Scheme/Racket adapter and the universal/tree-sitter adapter,
the returned summary satisfies `total_errors` = number of findings entries
with severity `error` and `total_warnings` = number with severity `warning`;
entries with severity `info`, any other severity, or no severity field count
in neither total. -/
theorem C10_summary_counts :
    (∀ (target sd : String) (ur ra : Bool) (eE rE wE fE : List SchemeEntry),
      (validate_scheme target ur sd ra eE rE wE fE).total_errors =
        (validate_scheme target ur sd ra eE rE wE fE).findings.countP
          (fun f => f.severity == "error") ∧
      (validate_scheme target ur sd ra eE rE wE fE).total_warnings =
        (validate_scheme target ur sd ra eE rE wE fE).findings.countP
          (fun f => f.severity == "warning")) ∧
    (∀ (fp : String) (up : Bool) (py : List TSEntry) (ta : Bool) (cli : CliOutcome),
      (validate_tree_sitter fp up py ta cli).total_errors =
        (validate_tree_sitter fp up py ta cli).findings.countP
          (fun e => tsSeverity e == some "error") ∧
      (validate_tree_sitter fp up py ta cli).total_warnings =
        (validate_tree_sitter fp up py ta cli).findings.countP
          (fun e => tsSeverity e == some "warning")) := by
  constructor
  · intro target sd ur ra eE rE wE fE
    constructor
    · exact ((List.mergeSort_perm _ findingLe).countP_eq _).symm
    · exact ((List.mergeSort_perm _ findingLe).countP_eq _).symm
  · intro fp up py ta cli
    exact ⟨rfl, rfl⟩
